import Mathlib

/-!
Shallow embedding of the vulnerability-report fix pipeline
(cmd/vulnreport/fix.go) and the report/OSV conversion helpers of
golang.org/x/vulndb (internal/report: cve.go, cve5.go, osv.go),
together with proofs of the specified properties.

External collaborators (the module-affected-range check, the symbol
exporter, the HTTP HEAD transport and the linter results) are passed as
explicit function arguments, following the interface boundaries of the
design document.  Machine strings are modelled as Lean `String`s, and
the Go regular expressions are translated into explicit recursive
scanners with the same leftmost, non-overlapping replacement semantics.
-/

namespace Vulndb

/-! ### Text normalization (internal/report/osv.go, trimWhitespace) -/

/-- The whitespace characters trimmed by strings.TrimSpace
(the ASCII fragment of unicode.IsSpace, which covers every input in
this development). -/
def goIsSpace (c : Char) : Bool :=
  c = ' ' || c = '\t' || c = '\n' || c = '\x0b' || c = '\x0c' || c = '\r'

/-- The character class matched by the RE2 escape backslash-s,
namely tab, newline, form feed, carriage return and space. -/
def reSpace (c : Char) : Bool :=
  c = '\t' || c = '\n' || c = '\x0c' || c = '\r' || c = ' '

/-- strings.TrimSpace on the character list of a string. -/
def trimSpaceL (l : List Char) : List Char :=
  ((l.dropWhile goIsSpace).reverse.dropWhile goIsSpace).reverse

/-- One pass of ReplaceAllString with the pattern
matching a non-newline, a newline and a non-newline, replacing the
match with the two outer characters joined by a space.  Matches are
found leftmost and do not overlap: after a match the scan resumes
after the consumed three characters, exactly as Go's regexp does. -/
def replaceSingleNewlines : List Char → List Char
  | [] => []
  | [a] => [a]
  | [a, b] => [a, b]
  | a :: b :: c :: rest =>
    if a ≠ '\n' ∧ b = '\n' ∧ c ≠ '\n' then
      a :: ' ' :: c :: replaceSingleNewlines rest
    else
      a :: replaceSingleNewlines (b :: c :: rest)

/-- Whether a character list contains two consecutive newlines. -/
def hasDoubleNL : List Char → Bool
  | a :: b :: rest => (a = '\n' && b = '\n') || hasDoubleNL (b :: rest)
  | _ => false

/-- Worker for `collapseParagraphs`, with explicit fuel (one unit per
consumed character, so fuel equal to the length of the list always
suffices).  A match of the paragraph pattern (whitespace run containing
two consecutive newlines) starts exactly at a whitespace character whose
maximal whitespace run contains a double newline; the greedy leading and
trailing whitespace stars make the match consume the whole run, which is
replaced by exactly two newlines. -/
def collapseParasAux : Nat → List Char → List Char
  | 0, rest => rest
  | _ + 1, [] => []
  | fuel + 1, c :: rest =>
    if reSpace c && hasDoubleNL (c :: rest.takeWhile reSpace) then
      '\n' :: '\n' :: collapseParasAux fuel (rest.dropWhile reSpace)
    else
      c :: collapseParasAux fuel rest

/-- One pass of ReplaceAllString with the paragraph pattern (whitespace
star, two newlines, whitespace star) replaced by two newlines. -/
def collapseParagraphs (l : List Char) : List Char :=
  collapseParasAux l.length l

/-- Space or tab, the class of the final replacement. -/
def isSpTab (c : Char) : Bool := c = ' ' || c = '\t'

/-- One pass of ReplaceAllString replacing every maximal run of spaces
and tabs with a single space. -/
def collapseSpaces : List Char → List Char
  | [] => []
  | [c] => if isSpTab c then [' '] else [c]
  | a :: b :: rest =>
    if isSpTab a ∧ isSpTab b then collapseSpaces (b :: rest)
    else if isSpTab a then ' ' :: collapseSpaces (b :: rest)
    else a :: collapseSpaces (b :: rest)

/-- trimWhitespace removes unnecessary whitespace from a string while
preserving paragraph breaks, translated step for step from the Go
function: TrimSpace, then the single-newline replacement, then the
paragraph replacement, then the space-and-tab replacement. -/
def trimWhitespace (s : String) : String :=
  String.mk (collapseSpaces (collapseParagraphs (replaceSingleNewlines (trimSpaceL s.data))))

/-! ### Ranges (internal/report, VersionRange and osv ranges) -/

/-- report.VersionRange: an introduced and a fixed version, either of
which may be empty. -/
structure VersionRange where
  introduced : String
  fixed : String
deriving DecidableEq

/-- osv.RangeEvent: either an introduced or a fixed version (the unused
field is the empty string, as in the Go zero value). -/
structure RangeEvent where
  introduced : String
  fixed : String
deriving DecidableEq

/-- osv.RangeType: only the semver type is used here. -/
inductive RangeType
  | semver
deriving DecidableEq

/-- osv.Range: a type and an ordered event list. -/
structure OSVRange where
  rangeType : RangeType
  events : List RangeEvent
deriving DecidableEq

/-- The loop body of AffectedRanges: append an introduced event if the
introduced field is non-empty, then a fixed event if the fixed field is
non-empty. -/
def addRangeEvents (acc : List RangeEvent) (v : VersionRange) : List RangeEvent :=
  let acc := if v.introduced ≠ "" then acc ++ [⟨v.introduced, ""⟩] else acc
  if v.fixed ≠ "" then acc ++ [⟨"", v.fixed⟩] else acc

/-- report.AffectedRanges: build the single osv range for an ordered
version-range list, seeding an introduced-0 event when the list is empty
or its first introduced field is empty. -/
def AffectedRanges (versions : List VersionRange) : List OSVRange :=
  let initEvents : List RangeEvent :=
    match versions with
    | [] => [⟨"0", ""⟩]
    | v :: _ => if v.introduced = "" then [⟨"0", ""⟩] else []
  [{ rangeType := RangeType.semver, events := versions.foldl addRangeEvents initEvents }]

/-! ### Version tag parser (cmd/vulnreport/fix.go, semverForGoVersion) -/

/-- ASCII digit, the RE2 escape backslash-d. -/
def isDigitChar (c : Char) : Bool := '0' ≤ c && c ≤ '9'

/-- The logical capture groups of the go tag regular expression:
major digits, minor digits, optional patch digits, optional prerelease
(kind characters and number digits). -/
structure GoTag where
  major : List Char
  minor : List Char
  patch : Option (List Char)
  pre : Option (List Char × List Char)
deriving DecidableEq

/-- Parse the optional prerelease suffix: the literal beta or rc
followed by one or more digits running to the end of the string. -/
def parsePre (l : List Char) : Option (List Char × List Char) :=
  if l.take 4 = ['b', 'e', 't', 'a'] then
    if l.drop 4 ≠ [] ∧ (l.drop 4).all isDigitChar then
      some (['b', 'e', 't', 'a'], l.drop 4)
    else none
  else if l.take 2 = ['r', 'c'] then
    if l.drop 2 ≠ [] ∧ (l.drop 2).all isDigitChar then
      some (['r', 'c'], l.drop 2)
    else none
  else none

/-- Deterministic scanner equivalent to the anchored go tag regular
expression: the literal go, digits, a dot, digits, an optional dot and
digits, and an optional prerelease suffix, all running to the end of the
input.  Every digit group is maximal, which agrees with the backtracking
semantics because no continuation of a digit group may begin with a
digit. -/
def parseGoTag (l : List Char) : Option GoTag :=
  match l with
  | c1 :: c2 :: rest =>
    if c1 = 'g' ∧ c2 = 'o' then
      if rest.takeWhile isDigitChar = [] then none
      else
        match rest.dropWhile isDigitChar with
        | [] => none
        | d :: r2 =>
          if d = '.' then
            if r2.takeWhile isDigitChar = [] then none
            else
              match r2.dropWhile isDigitChar with
              | [] =>
                some ⟨rest.takeWhile isDigitChar, r2.takeWhile isDigitChar, none, none⟩
              | d2 :: r4 =>
                if d2 = '.' then
                  if r4.takeWhile isDigitChar = [] then none
                  else
                    match r4.dropWhile isDigitChar with
                    | [] =>
                      some ⟨rest.takeWhile isDigitChar, r2.takeWhile isDigitChar,
                        some (r4.takeWhile isDigitChar), none⟩
                    | e :: r6 =>
                      (parsePre (e :: r6)).map fun q =>
                        ⟨rest.takeWhile isDigitChar, r2.takeWhile isDigitChar,
                          some (r4.takeWhile isDigitChar), some q⟩
                else
                  (parsePre (d2 :: r4)).map fun q =>
                    ⟨rest.takeWhile isDigitChar, r2.takeWhile isDigitChar, none, some q⟩
          else none
    else none
  | _ => none

/-- Assemble the semantic version exactly as the Go code does: the
major.minor group, then the patch group or the default .0, then the
prerelease rendered as a dash, the kind, a dot and the number. -/
def mkSemver (t : GoTag) : List Char :=
  (t.major ++ '.' :: t.minor)
    ++ (match t.patch with | some p => '.' :: p | none => ['.', '0'])
    ++ (match t.pre with | some (k, n) => '-' :: (k ++ '.' :: n) | none => [])

/-- semverForGoVersion returns the semantic version for a Go version
tag, or the empty string when the tag does not match the go tag
pattern. -/
def semverForGoVersion (v : String) : String :=
  match parseGoTag v.data with
  | none => ""
  | some t => String.mk (mkSemver t)

/-! ### Data model (internal/report) -/

/-- report.Reference.  Modelled from the spec: referenceFromUrl wraps
the raw URL with no additional field synthesis, so only the URL is
kept. -/
structure Reference where
  url : String
deriving DecidableEq

/-- report.Package: the fields used by the fix pipeline and the entry
generator. -/
structure Package where
  package : String := ""
  skipFix : String := ""
  symbolList : List String := []
  derivedSymbols : List String := []
  excludedSymbols : List String := []
  goos : List String := []
  goarch : List String := []
deriving DecidableEq

/-- report.Module.  Modelled from the spec: the IsFirstParty method is
represented by the first-party flag of the data model. -/
structure Module where
  module : String := ""
  isFirstParty : Bool := false
  vulnerableAt : String := ""
  versions : List VersionRange := []
  packages : List Package := []
deriving DecidableEq

/-- report.CVEMeta: the primary CVE metadata. -/
structure CVEMeta where
  id : String
  cwe : String
deriving DecidableEq

/-- report.Report.  Modelled from the spec: the IsExcluded method is
represented by the excluded flag of the data model. -/
structure Report where
  id : String := ""
  isExcluded : Bool := false
  modules : List Module := []
  description : String := ""
  credits : List String := []
  references : List Reference := []
  cves : List String := []
  cveMetadata : Option CVEMeta := none
deriving DecidableEq

/-! ### Standard library paths and public identifiers.

Modelled from the spec: the internal sentinel paths for the standard
library and the toolchain (internal/stdlib) and the distinct public
identifiers they are rendered as (internal/osv) are not part of the
analysed sources; only their existence and distinctness matter here. -/

/-- Modelled from the spec: the internal standard-library sentinel
module path (stdlib.ModulePath). -/
def stdlibModulePath : String := "std"

/-- Modelled from the spec: the internal toolchain sentinel module path
(stdlib.ToolchainModulePath). -/
def toolchainModulePath : String := "cmd"

/-- Modelled from the spec: the public standard-library identifier
(osv.GoStdModulePath). -/
def goStdModulePath : String := "stdlib"

/-- Modelled from the spec: the public toolchain identifier
(osv.GoCmdModulePath). -/
def goCmdModulePath : String := "toolchain"

/-- Modelled from the spec: stdlib.Contains recognizes a module path
that is part of the standard-library family (the standard library or
its toolchain); an empty candidate module path is not part of the
family. -/
def stdlibContains (path : String) : Bool :=
  path == stdlibModulePath || path == toolchainModulePath

/-- Modelled from the spec: stdlib.IsStdModule. -/
def isStdModule (m : String) : Bool := m == stdlibModulePath

/-- Modelled from the spec: stdlib.IsCmdModule. -/
def isCmdModule (m : String) : Bool := m == toolchainModulePath

/-- Modelled from the spec: stdlib.IsXModule, the extended first-party
repository family. -/
def isXModule (m : String) : Bool :=
  List.isPrefixOf "golang.org/x/".data m.data

/-- Modelled from the spec: referenceFromUrl wraps a raw URL. -/
def referenceFromUrl (u : String) : Reference := ⟨u⟩

/-! ### Schema converter (internal/report/cve.go and cve5.go) -/

/-- One entry of the v4 Affects.Vendor.Data list: its product names. -/
structure Vendor4 where
  productNames : List String
deriving DecidableEq

/-- The fields of a CVE v4 record read by the converter. -/
structure CVE4 where
  descValues : List String
  refURLs : List String
  creditValues : List String
  vendors : List Vendor4
  metadataID : String
deriving DecidableEq

/-- One entry of the v5 CNA affected list: its product name. -/
structure Affected5 where
  product : String
deriving DecidableEq

/-- The fields of a CVE v5 record read by the converter; descriptions
carry a language tag. -/
structure CVE5 where
  descriptions : List (String × String)
  creditValues : List String
  refURLs : List String
  affected : List Affected5
  metadataID : String
deriving DecidableEq

/-- The candidate package path of a v4 record: the first product name
of the first vendor entry, or the empty string. -/
def firstProductV4 (c : CVE4) : String :=
  match c.vendors with
  | v :: _ =>
    match v.productNames with
    | p :: _ => p
    | [] => ""
  | [] => ""

/-- The candidate package path of a v5 record: the first affected
product, or the empty string. -/
def firstProductV5 (c : CVE5) : String :=
  match c.affected with
  | a :: _ => a.product
  | [] => ""

/-- Report.addCVE: attach the CVE id as primary metadata for the
standard library, command and extended first-party families, and as a
plain alias otherwise. -/
def addCVE (r : Report) (cveID modulePath : String) : Report :=
  if isStdModule modulePath || isCmdModule modulePath || isXModule modulePath then
    { r with cveMetadata := some ⟨cveID, "TODO"⟩ }
  else
    { r with cves := r.cves ++ [cveID] }

/-- cveToReport: build a report skeleton from a CVE v4 record,
correcting standard-library paths, replacing a still-empty module path
with the TODO marker and defaulting an empty package path to the module
path. -/
def cveToReport (c : CVE4) (id modulePath : String) : Report :=
  let description := String.join (c.descValues.map (fun d => d ++ "\n"))
  let refs := c.refURLs.map referenceFromUrl
  let credits := c.creditValues
  let pkgPath := firstProductV4 c
  let mp := if stdlibContains modulePath then stdlibModulePath else modulePath
  let pkgPath := if stdlibContains modulePath then modulePath else pkgPath
  let mp := if mp = "" then "TODO" else mp
  let pkgPath := if pkgPath = "" then mp else pkgPath
  let r : Report :=
    { id := id
      modules := [{ module := mp, packages := [{ package := pkgPath }] }]
      description := description
      credits := credits
      references := refs }
  addCVE r c.metadataID mp

/-- cve5ToReport: build a report skeleton from a CVE v5 record; the
description keeps only English entries, and the path correction is the
same as in the v4 converter. -/
def cve5ToReport (c : CVE5) (id modulePath : String) : Report :=
  let description :=
    String.join ((c.descriptions.filter (fun d => d.1 = "en")).map (fun d => d.2 ++ "\n"))
  let credits := c.creditValues
  let refs := c.refURLs.map referenceFromUrl
  let pkgPath := firstProductV5 c
  let mp := if stdlibContains modulePath then stdlibModulePath else modulePath
  let pkgPath := if stdlibContains modulePath then modulePath else pkgPath
  let mp := if mp = "" then "TODO" else mp
  let pkgPath := if pkgPath = "" then mp else pkgPath
  let r : Report :=
    { id := id
      modules := [{ module := mp, versions := [], packages := [{ package := pkgPath }] }]
      description := description
      credits := credits
      references := refs }
  addCVE r c.metadataID mp

/-! ### Entry generator (internal/report/osv.go) -/

/-- osv.Package. -/
structure OSVPackage where
  path : String
  goos : List String
  goarch : List String
  symbols : List String
deriving DecidableEq

/-- osv.Module. -/
structure OSVModule where
  path : String
  ecosystem : String
deriving DecidableEq

/-- osv.EcosystemSpecific. -/
structure EcosystemSpecific where
  packages : List OSVPackage
deriving DecidableEq

/-- osv.Affected. -/
structure OSVAffected where
  module : OSVModule
  ranges : List OSVRange
  ecosystemSpecific : EcosystemSpecific
deriving DecidableEq

/-- Insert a string into a sorted list, keeping it sorted. -/
def insertSorted (s : String) : List String → List String
  | [] => [s]
  | t :: rest => if s ≤ t then s :: t :: rest else t :: insertSorted s rest

/-- sort.Strings: sort a string list into nondecreasing order (any
comparison sort produces this sequence, since strings are compared by
value). -/
def sortStrings (l : List String) : List String := l.foldr insertSorted []

/-- generateImports: one osv package per report package, with the
curated and derived symbols concatenated and sorted, not
deduplicated. -/
def generateImports (m : Module) : List OSVPackage :=
  m.packages.map fun p =>
    { path := p.package
      goos := p.goos
      goarch := p.goarch
      symbols := sortStrings (p.symbolList ++ p.derivedSymbols) }

/-- generateAffected: the public affected block of a module, rendering
the internal standard-library and toolchain sentinel paths as the
public identifiers. -/
def generateAffected (m : Module) : OSVAffected :=
  let name :=
    if m.module = stdlibModulePath then goStdModulePath
    else if m.module = toolchainModulePath then goCmdModulePath
    else m.module
  { module := { path := name, ecosystem := "Go" }
    ranges := AffectedRanges m.versions
    ecosystemSpecific := { packages := generateImports m } }

/-! ### Reference validator (cmd/vulnreport/fix.go, checkRefs) -/

/-- The outcome of the HEAD transport collaborator for one URL: a
transport-level failure carrying an error message, or a received
response carrying a status code. -/
inductive HeadResult
  | transportError (msg : String)
  | response (statusCode : Nat)
deriving DecidableEq

/-- checkRefs: walk the references in order; a transport failure
records a defect, a received 404 records a defect, and any other
received status records nothing.  The returned list is the sequence of
recorded defect messages (the fixErr calls). -/
def checkRefs (head : String → HeadResult) : List Reference → List String
  | [] => []
  | r :: rest =>
    match head r.url with
    | HeadResult.transportError e =>
      (r.url ++ " may not exist: " ++ e) :: checkRefs head rest
    | HeadResult.response code =>
      if code = 404 then
        (r.url ++ " may not exist: HTTP GET returned status " ++ toString code)
          :: checkRefs head rest
      else
        checkRefs head rest

/-! ### Symbol refresher (cmd/vulnreport/fix.go, checkSymbols) -/

/-- removeExcluded: drop every derived symbol present in the
human-curated exclusion list; an empty exclusion list returns the input
unchanged. -/
def removeExcluded (syms excluded : List String) : List String :=
  if excluded = [] then syms
  else syms.filter fun d => ¬ excluded.contains d

/-- The package loop of checkSymbols for one module: skip packages with
a non-empty skip reason; query the symbol exporter for the others,
recording the query; on failure stop at once and return the wrapped
error with the remaining packages untouched; otherwise reconcile with
the exclusion list and replace the derived symbols when they differ. -/
def checkPackages (exported : Module → Package → Except String (List String))
    (m : Module) : List Package → List Package × List (String × String) × Option String
  | [] => ([], [], none)
  | p :: rest =>
    if p.skipFix ≠ "" then
      let (ps, qs, e) := checkPackages exported m rest
      (p :: ps, qs, e)
    else
      match exported m p with
      | Except.error e =>
        (p :: rest, [(m.module, p.package)], some ("package " ++ p.package ++ ": " ++ e))
      | Except.ok syms =>
        let syms2 := removeExcluded syms p.excludedSymbols
        let p2 := if syms2 = p.derivedSymbols then p else { p with derivedSymbols := syms2 }
        let (ps, qs, e) := checkPackages exported m rest
        (p2 :: ps, (m.module, p.package) :: qs, e)

/-- The module body of checkSymbols: for a first-party module, gate the
refresh on the parsed current toolchain version and the affected-range
check; an unknown version or an out-of-range version skips the module,
and a failing range check aborts with its error.  The returned triple
is the updated module, the symbol queries made, and the error if
any. -/
def processModule (gover : String)
    (affects : List OSVRange → String → Except String Bool)
    (exported : Module → Package → Except String (List String))
    (m : Module) : Module × List (String × String) × Option String :=
  if m.isFirstParty then
    let ver := semverForGoVersion gover
    match affects (AffectedRanges m.versions) ver with
    | Except.error e => (m, [], some e)
    | Except.ok affected =>
      if ver = "" ∨ affected = false then (m, [], none)
      else
        let (ps, qs, e) := checkPackages exported m m.packages
        ({ m with packages := ps }, qs, e)
  else
    let (ps, qs, e) := checkPackages exported m m.packages
    ({ m with packages := ps }, qs, e)

/-- The module loop of checkSymbols: process modules in order; an error
stops the walk at once, leaving the remaining modules untouched. -/
def checkModules (gover : String)
    (affects : List OSVRange → String → Except String Bool)
    (exported : Module → Package → Except String (List String)) :
    List Module → List Module × List (String × String) × Option String
  | [] => ([], [], none)
  | m :: rest =>
    let (m2, qs, e) := processModule gover affects exported m
    match e with
    | some err => (m2 :: rest, qs, some err)
    | none =>
      let (ms, qs2, e2) := checkModules gover affects exported rest
      (m2 :: ms, qs ++ qs2, e2)

/-- checkSymbols: an excluded report skips symbol checks entirely;
otherwise walk the modules.  The returned triple is the (possibly
partially) updated report, the symbol queries made, and the error if
any. -/
def checkSymbols (gover : String)
    (affects : List OSVRange → String → Except String Bool)
    (exported : Module → Package → Except String (List String))
    (r : Report) : Report × List (String × String) × Option String :=
  if r.isExcluded then (r, [], none)
  else
    let (ms, qs, e) := checkModules gover affects exported r.modules
    ({ r with modules := ms }, qs, e)

/-! ### Reconciliation engine (cmd/vulnreport/fix.go, fixer.fix and
fixAndWriteAll) -/

/-- The process-wide flags of the fix command. -/
structure Flags where
  force : Bool := false
  skipAlias : Bool := false
  skipSymbols : Bool := false
deriving DecidableEq

/-- The steps a fix pass can execute, in order: the initial lint, the
autofixer, the symbol refresh, the alias merge, the reference check and
the final lint. -/
inductive FixStep
  | lintStep
  | autofixStep
  | symbolsStep
  | aliasStep
  | refsStep
  | finalLintStep
deriving DecidableEq

/-- The observable outcome of one fix pass: the steps executed, the
updated report, the recorded fixErr messages and the success flag. -/
structure FixOutcome where
  steps : List FixStep
  report : Report
  errors : List String
  fixed : Bool
deriving DecidableEq

/-- fixer.fix: one reconciliation pass.  The linter results are passed
in as collaborator outcomes: lints1 is the initial lint, lints2 the
final lint, and lintAsNotesBad the result of LintAsNotes in note-adding
mode.  The pass runs every step in order regardless of earlier
failures; fixed is true exactly when no fixErr was recorded and the
final lint check passes. -/
def fixRun (flags : Flags) (lints1 lints2 : List String) (lintAsNotesBad : Bool)
    (gover : String)
    (affects : List OSVRange → String → Except String Bool)
    (exported : Module → Package → Except String (List String))
    (head : String → HeadResult)
    (addNotes : Bool) (r : Report) : FixOutcome :=
  let s1 : List FixStep :=
    if flags.force || !lints1.isEmpty then [FixStep.lintStep, FixStep.autofixStep]
    else [FixStep.lintStep]
  let symPhase : Report × List String × List FixStep :=
    if flags.skipSymbols then (r, [], [])
    else
      let (r1, _, e) := checkSymbols gover affects exported r
      match e with
      | some err => (r1, ["package or symbol error: " ++ err], [FixStep.symbolsStep])
      | none => (r1, [], [FixStep.symbolsStep])
  let r1 := symPhase.1
  let symErrs := symPhase.2.1
  let s2 := symPhase.2.2
  let s3 : List FixStep := if flags.skipAlias then [] else [FixStep.aliasStep]
  let refErrs := checkRefs head r1.references
  let finalBad := if addNotes then lintAsNotesBad else !lints2.isEmpty
  let errors := symErrs ++ refErrs
  { steps := s1 ++ s2 ++ s3 ++ [FixStep.refsStep, FixStep.finalLintStep]
    report := r1
    errors := errors
    fixed := errors.isEmpty && !finalBad }

/-- The write calls fixAndWriteAll can make. -/
inductive WriteCall
  | writeReport
  | writeDerived
deriving DecidableEq

/-- The requires-manual-review error message of fixAndWriteAll. -/
def manualReviewMsg (id : String) : String :=
  id ++ ": could not fix all errors; requires manual review"

/-- fixer.fixAndWriteAll: run the fix pass, then write the report no
matter what; if the write succeeds and the pass fully succeeded,
regenerate the derived files, otherwise return the
requires-manual-review error.  The write outcomes are collaborator
results; the returned triple is the fix outcome, the write calls made
in order, and the error result. -/
def fixAndWriteAll (flags : Flags) (lints1 lints2 : List String)
    (gover : String)
    (affects : List OSVRange → String → Except String Bool)
    (exported : Module → Package → Except String (List String))
    (head : String → HeadResult)
    (writeErr derivedErr : Option String)
    (r : Report) : FixOutcome × List WriteCall × Option String :=
  let out := fixRun flags lints1 lints2 false gover affects exported head false r
  match writeErr with
  | some e => (out, [WriteCall.writeReport], some e)
  | none =>
    if out.fixed then (out, [WriteCall.writeReport, WriteCall.writeDerived], derivedErr)
    else (out, [WriteCall.writeReport], some (manualReviewMsg r.id))

/-! ### Helper lemmas -/

/-- The events contributed by one version range: an introduced event
when the introduced field is non-empty, then a fixed event when the
fixed field is non-empty. -/
def rangeEventsOf (v : VersionRange) : List RangeEvent :=
  (if v.introduced ≠ "" then [⟨v.introduced, ""⟩] else [])
    ++ (if v.fixed ≠ "" then [⟨"", v.fixed⟩] else [])

theorem addRangeEvents_eq (acc : List RangeEvent) (v : VersionRange) :
    addRangeEvents acc v = acc ++ rangeEventsOf v := by
  unfold addRangeEvents rangeEventsOf
  by_cases hi : v.introduced = "" <;> by_cases hf : v.fixed = "" <;> simp [hi, hf]

theorem foldl_addRangeEvents (versions : List VersionRange) (init : List RangeEvent) :
    versions.foldl addRangeEvents init = init ++ versions.flatMap rangeEventsOf := by
  induction versions generalizing init with
  | nil => simp
  | cons v vs ih =>
    simp [List.foldl_cons, addRangeEvents_eq, ih, List.append_assoc]

/-! ### C4 -/

/-- C4: the claim states that trimWhitespace is idempotent.  The code is
not: on the input with two single newlines separated by one character,
the leftmost non-overlapping replacement of the single-newline pattern
consumes the character before the second newline, so the second newline
survives one pass and is replaced only by a second pass. -/
theorem claim_C4 :
    trimWhitespace "a\nb\nc" = "a b\nc"
    ∧ trimWhitespace (trimWhitespace "a\nb\nc") = "a b c"
    ∧ trimWhitespace (trimWhitespace "a\nb\nc") ≠ trimWhitespace "a\nb\nc" :=
  ⟨by decide, by decide, by decide⟩

/-! ### C5 -/

/-- C5: AffectedRanges returns a single semver range whose events are
an implicit introduced-0 event exactly when the version list is empty or
its first introduced field is empty, followed by, for each range in
original order, an introduced event when that field is non-empty and
then a fixed event when that field is non-empty, with no deduplication
or merging. -/
theorem claim_C5 (versions : List VersionRange) :
    AffectedRanges versions =
      [{ rangeType := RangeType.semver
         events :=
           (match versions with
            | [] => [⟨"0", ""⟩]
            | v :: _ => if v.introduced = "" then [⟨"0", ""⟩] else [])
           ++ versions.flatMap rangeEventsOf }] := by
  unfold AffectedRanges
  dsimp only
  rw [foldl_addRangeEvents]

/-! ### C6 -/

/-- The defect recorded for one reference by checkRefs, as a list that
is empty when no defect is recorded. -/
def refDefect (head : String → HeadResult) (r : Reference) : List String :=
  match head r.url with
  | HeadResult.transportError e => [r.url ++ " may not exist: " ++ e]
  | HeadResult.response code =>
    if code = 404 then
      [r.url ++ " may not exist: HTTP GET returned status " ++ toString code]
    else []

/-- C6: checkRefs records, per reference in order, a defect for a
transport-level failure, a defect for a received 404 response, and no
defect for any other received status. -/
theorem claim_C6 (head : String → HeadResult) (refs : List Reference) :
    checkRefs head refs = refs.flatMap (refDefect head)
    ∧ (∀ u e, head u = HeadResult.transportError e → refDefect head ⟨u⟩ ≠ [])
    ∧ (∀ u, head u = HeadResult.response 404 → refDefect head ⟨u⟩ ≠ [])
    ∧ (∀ u c, head u = HeadResult.response c → c ≠ 404 → refDefect head ⟨u⟩ = []) := by
  refine ⟨?_, ?_, ?_, ?_⟩
  · induction refs with
    | nil => rfl
    | cons r rest ih =>
      unfold checkRefs
      cases h : head r.url with
      | transportError e => simp [refDefect, h, ih]
      | response code =>
        by_cases hc : code = 404 <;> simp [refDefect, h, hc, ih]
  · intro u e h
    simp [refDefect, h]
  · intro u h
    simp [refDefect, h]
  · intro u c h hc
    simp [refDefect, h, hc]

/-- C6 witness: a transport failure and a 404 are recorded, a 500 is
not. -/
def wHeadC6 : String → HeadResult := fun u =>
  if u = "https://a.example" then HeadResult.transportError "dial failed"
  else if u = "https://b.example" then HeadResult.response 500
  else HeadResult.response 404

theorem claim_C6_witness :
    checkRefs wHeadC6 [⟨"https://a.example"⟩, ⟨"https://b.example"⟩, ⟨"https://c.example"⟩]
      = ["https://a.example may not exist: dial failed",
         "https://c.example may not exist: HTTP GET returned status 404"]
    ∧ refDefect wHeadC6 ⟨"https://b.example"⟩ = [] := by
  have h := claim_C6 wHeadC6
    [⟨"https://a.example"⟩, ⟨"https://b.example"⟩, ⟨"https://c.example"⟩]
  exact ⟨(h.1).trans (by rfl), h.2.2.2 "https://b.example" 500 (by rfl) (by decide)⟩

/-! ### C8 -/

/-- C8: generateAffected renders the module path by mapping the
internal standard-library sentinel to the public standard-library
identifier and the internal toolchain sentinel to the public toolchain
identifier, passing every other path through unchanged; the internal
sentinels never appear in the public affected block. -/
theorem claim_C8 (m : Module) :
    ((generateAffected m).module.path =
      if m.module = stdlibModulePath then goStdModulePath
      else if m.module = toolchainModulePath then goCmdModulePath
      else m.module)
    ∧ (generateAffected m).module.path ≠ stdlibModulePath
    ∧ (generateAffected m).module.path ≠ toolchainModulePath := by
  refine ⟨rfl, ?_, ?_⟩ <;>
  · show (if m.module = stdlibModulePath then goStdModulePath
      else if m.module = toolchainModulePath then goCmdModulePath
      else m.module) ≠ _
    split
    · decide
    · split
      · decide
      · simp_all [stdlibModulePath, toolchainModulePath]

/-! ### Shared witness fixtures -/

/-- A range check collaborator that always answers affected. -/
def wAffects : List OSVRange → String → Except String Bool := fun _ _ => Except.ok true

/-- A symbol exporter collaborator that always answers the empty set. -/
def wExported : Module → Package → Except String (List String) := fun _ _ => Except.ok []

/-- A HEAD transport collaborator that always answers 200. -/
def wHead : String → HeadResult := fun _ => HeadResult.response 200

/-- A minimal report. -/
def wReport : Report := { id := "GO-TEST-0001" }

/-! ### C1 -/

/-- C1: when the fix pass reports failure, fixAndWriteAll still writes
the report (the report write is always the first call, and with a
successful write the result is exactly the written report plus the
requires-manual-review error), so an error return does not mean nothing
was written. -/
theorem claim_C1 (flags : Flags) (l1 l2 : List String) (gover : String)
    (affects : List OSVRange → String → Except String Bool)
    (exported : Module → Package → Except String (List String))
    (head : String → HeadResult) (derivedErr : Option String) (r : Report)
    (h : (fixRun flags l1 l2 false gover affects exported head false r).fixed = false) :
    (∀ writeErr,
      ((fixAndWriteAll flags l1 l2 gover affects exported head writeErr derivedErr r).2.1).head?
        = some WriteCall.writeReport)
    ∧ fixAndWriteAll flags l1 l2 gover affects exported head none derivedErr r
      = (fixRun flags l1 l2 false gover affects exported head false r,
         [WriteCall.writeReport], some (manualReviewMsg r.id)) := by
  constructor
  · intro writeErr
    unfold fixAndWriteAll
    cases writeErr with
    | none => simp [h]
    | some e => simp
  · unfold fixAndWriteAll
    simp [h]

/-- C1 witness: a report whose final lint still has a defect is written
and the manual-review error is returned. -/
theorem claim_C1_witness :
    ((fixRun {} [] ["still bad"] false "go1.21.3" wAffects wExported wHead false wReport).fixed
      = false)
    ∧ fixAndWriteAll {} [] ["still bad"] "go1.21.3" wAffects wExported wHead none none wReport
      = (fixRun {} [] ["still bad"] false "go1.21.3" wAffects wExported wHead false wReport,
         [WriteCall.writeReport], some (manualReviewMsg "GO-TEST-0001")) :=
  ⟨rfl, (claim_C1 {} [] ["still bad"] "go1.21.3" wAffects wExported wHead none wReport rfl).2⟩

/-! ### C10 -/

/-- C10: fixAndWriteAll calls writeDerived exactly when the fix pass
reported full success and the report write itself succeeded. -/
theorem claim_C10 (flags : Flags) (l1 l2 : List String) (gover : String)
    (affects : List OSVRange → String → Except String Bool)
    (exported : Module → Package → Except String (List String))
    (head : String → HeadResult) (writeErr derivedErr : Option String) (r : Report) :
    WriteCall.writeDerived
        ∈ (fixAndWriteAll flags l1 l2 gover affects exported head writeErr derivedErr r).2.1
    ↔ ((fixRun flags l1 l2 false gover affects exported head false r).fixed = true
        ∧ writeErr = none) := by
  unfold fixAndWriteAll
  cases writeErr with
  | some e => simp
  | none =>
    cases h : (fixRun flags l1 l2 false gover affects exported head false r).fixed with
    | true => simp [h]
    | false => simp [h]

/-! ### C2 -/

/-- C2: for a first-party module, when the parsed toolchain version is
the empty unknown sentinel or the affected-range check answers false,
the refresh for that module is skipped: the module (and with it every
DerivedSymbols field of its packages) is unchanged and no symbol query
is made for its packages. -/
theorem claim_C2 (gover : String)
    (affects : List OSVRange → String → Except String Bool)
    (exported : Module → Package → Except String (List String))
    (m : Module) (hfp : m.isFirstParty = true)
    (h : semverForGoVersion gover = ""
      ∨ affects (AffectedRanges m.versions) (semverForGoVersion gover) = Except.ok false) :
    (processModule gover affects exported m).1 = m
    ∧ (processModule gover affects exported m).2.1 = [] := by
  unfold processModule
  cases haff : affects (AffectedRanges m.versions) (semverForGoVersion gover) with
  | error e => simp [hfp, haff]
  | ok b =>
    rcases h with h | h
    · rw [h] at haff
      simp [hfp, haff, h]
    · rw [haff] at h
      injection h with h
      subst h
      simp [hfp, haff]

/-- C2 witness: a first-party module under an unparsable toolchain
version is left unchanged and unqueried, although the exporter would
have answered. -/
def wModC2 : Module :=
  { module := "std"
    isFirstParty := true
    versions := [⟨"", "1.21.4"⟩]
    packages := [{ package := "crypto/x", derivedSymbols := ["Old"] }] }

theorem claim_C2_witness :
    (wModC2.isFirstParty = true
      ∧ (semverForGoVersion "devel-abc123" = ""
        ∨ wAffects (AffectedRanges wModC2.versions) (semverForGoVersion "devel-abc123")
            = Except.ok false))
    ∧ (processModule "devel-abc123" wAffects wExported wModC2).1 = wModC2
    ∧ (processModule "devel-abc123" wAffects wExported wModC2).2.1 = [] :=
  ⟨⟨rfl, Or.inl rfl⟩, claim_C2 "devel-abc123" wAffects wExported wModC2 rfl (Or.inl rfl)⟩

/-! ### C3 -/

/-- First fixture package of the C3 scenario: its export fails. -/
def c3pkg1 : Package := { package := "a/p1" }

/-- Second fixture package of the C3 scenario: its export would
succeed. -/
def c3pkg2 : Package := { package := "b/p2" }

/-- First fixture module of the C3 scenario. -/
def c3mod1 : Module := { module := "example.com/a", packages := [c3pkg1] }

/-- Second fixture module of the C3 scenario. -/
def c3mod2 : Module := { module := "example.com/b", packages := [c3pkg2] }

/-- Fixture report of the C3 scenario. -/
def c3report : Report := { id := "GO-TEST-0002", modules := [c3mod1, c3mod2] }

/-- Fixture exporter of the C3 scenario: fails for the first package,
succeeds with a fresh symbol for every other. -/
def c3exported : Module → Package → Except String (List String) := fun _ p =>
  if p.package = "a/p1" then Except.error "load failed" else Except.ok ["NewSym"]

/-- C3 counterexample: the claim states that an exporter failure for
one package aborts only that module's refresh and that the refresh
still takes place for the remaining modules.  On this input the
exporter fails for the only package of the first module while it would
succeed with a changed symbol set for the second module; yet
checkSymbols returns with the whole report unchanged and with the first
module's package as the only query made, so the second module was
neither queried nor refreshed. -/
theorem claim_C3_counterexample :
    checkSymbols "go1.21.3" wAffects c3exported c3report
      = (c3report, [("example.com/a", "a/p1")], some "package a/p1: load failed")
    ∧ c3exported c3mod2 c3pkg2 = Except.ok ["NewSym"]
    ∧ c3pkg2.derivedSymbols ≠ ["NewSym"] :=
  ⟨rfl, rfl, by decide⟩

/-- The package loop stops at the first export failure: a prefix that
processes without error keeps its (possibly refreshed) result, the
failing package is queried and returned untouched together with every
later package, and the wrapped error is reported. -/
theorem checkPackages_error_at (exported : Module → Package → Except String (List String))
    (m : Module) (ps1 ps1' ps2 : List Package) (p : Package)
    (qs1 : List (String × String)) (e : String)
    (hps1 : checkPackages exported m ps1 = (ps1', qs1, none))
    (hskip : p.skipFix = "") (herr : exported m p = Except.error e) :
    checkPackages exported m (ps1 ++ p :: ps2)
      = (ps1' ++ p :: ps2, qs1 ++ [(m.module, p.package)],
         some ("package " ++ p.package ++ ": " ++ e)) := by
  induction ps1 generalizing ps1' qs1 with
  | nil =>
    unfold checkPackages at hps1
    injection hps1 with h1 h2
    injection h2 with h2a h2b
    subst h1
    subst h2a
    rw [List.nil_append, List.nil_append]
    unfold checkPackages
    simp [hskip, herr]
  | cons q rest ih =>
    rcases hrec : checkPackages exported m rest with ⟨psR, qsR, eR⟩
    rw [List.cons_append]
    unfold checkPackages at hps1 ⊢
    by_cases hq : q.skipFix ≠ ""
    · rw [if_pos hq, hrec] at hps1
      rw [if_pos hq]
      dsimp only at hps1
      injection hps1 with h1 h2
      injection h2 with h2a h2b
      subst h1
      subst h2a
      subst h2b
      rw [ih psR qsR hrec]
      simp
    · rw [if_neg hq] at hps1 ⊢
      cases hexp : exported m q with
      | error e2 =>
        rw [hexp] at hps1
        dsimp only at hps1
        injection hps1 with h1 h2
        injection h2 with h2a h2b
        exact absurd h2b (by simp)
      | ok syms =>
        rw [hexp] at hps1
        dsimp only at hps1 ⊢
        rw [hrec] at hps1
        dsimp only at hps1
        injection hps1 with h1 h2
        injection h2 with h2a h2b
        subst h1
        subst h2a
        subst h2b
        rw [ih psR qsR hrec]
        simp

/-- The module loop stops at the first erroring module: a prefix that
processes without error keeps its result, the erroring module's own
result and queries are appended, every later module is returned
untouched and the error is propagated. -/
theorem checkModules_error_at (gover : String)
    (affects : List OSVRange → String → Except String Bool)
    (exported : Module → Package → Except String (List String))
    (pre pre' post : List Module) (m m' : Module)
    (qsPre qsM : List (String × String)) (err : String)
    (hpre : checkModules gover affects exported pre = (pre', qsPre, none))
    (hm : processModule gover affects exported m = (m', qsM, some err)) :
    checkModules gover affects exported (pre ++ m :: post)
      = (pre' ++ m' :: post, qsPre ++ qsM, some err) := by
  induction pre generalizing pre' qsPre with
  | nil =>
    unfold checkModules at hpre
    injection hpre with h1 h2
    injection h2 with h2a h2b
    subst h1
    subst h2a
    rw [List.nil_append]
    unfold checkModules
    rw [hm]
    simp
  | cons q rest ih =>
    rcases hq : processModule gover affects exported q with ⟨q2, qsQ, eQ⟩
    rw [List.cons_append]
    unfold checkModules at hpre ⊢
    rw [hq] at hpre ⊢
    dsimp only at hpre ⊢
    cases eQ with
    | some e2 =>
      injection hpre with h1 h2
      injection h2 with h2a h2b
      exact absurd h2b (by simp)
    | none =>
      rcases hrec : checkModules gover affects exported rest with ⟨msR, qsR, eR⟩
      rw [hrec] at hpre
      dsimp only at hpre
      injection hpre with h1 h2
      injection h2 with h2a h2b
      subst h1
      subst h2b
      rw [ih msR qsR hrec]
      simp [← h2a]

/-- The module body reaches the package loop whenever the module is not
first-party, or is first-party with a parsed version and an affected
answer, and then returns exactly the package loop's result. -/
theorem processModule_of_gate (gover : String)
    (affects : List OSVRange → String → Except String Bool)
    (exported : Module → Package → Except String (List String))
    (m : Module) (ps' : List Package) (qs : List (String × String)) (e : Option String)
    (hgate : m.isFirstParty = false
      ∨ (semverForGoVersion gover ≠ ""
        ∧ affects (AffectedRanges m.versions) (semverForGoVersion gover) = Except.ok true))
    (hpk : checkPackages exported m m.packages = (ps', qs, e)) :
    processModule gover affects exported m = ({ m with packages := ps' }, qs, e) := by
  unfold processModule
  by_cases hfp : m.isFirstParty = true
  · rw [if_pos hfp]
    rcases hgate with hfp' | ⟨hver, haff⟩
    · rw [hfp'] at hfp
      exact absurd hfp (by simp)
    · dsimp only
      rw [haff]
      dsimp only
      rw [if_neg (by simp [hver])]
      rw [hpk]
  · rw [if_neg hfp]
    rw [hpk]

/-- C3 (amended): when the symbol exporter fails for one package — at
any position, in a non-first-party module or in a first-party module
that passed the version gate — checkSymbols aborts the whole symbol
refresh of the report at once and returns the wrapped error: packages
and modules processed before the failure keep their refreshed result,
while the failed package and every later package and module are
returned untouched and unqueried.  The failure is reported (the fix
pass records the error and reports failure), and the reconciliation run
is not aborted: the alias-merge and reference-validation steps still
run. -/
theorem claim_C3 (flags : Flags) (l1 l2 : List String) (gover : String)
    (affects : List OSVRange → String → Except String Bool)
    (exported : Module → Package → Except String (List String))
    (head : String → HeadResult) (r : Report)
    (pre pre' post : List Module) (m : Module)
    (ps1 ps1' ps2 : List Package) (p : Package)
    (qsPre qs1 : List (String × String)) (e : String)
    (hsf : flags.skipSymbols = false) (hsa : flags.skipAlias = false)
    (hex : r.isExcluded = false)
    (hm : r.modules = pre ++ m :: post)
    (hpre : checkModules gover affects exported pre = (pre', qsPre, none))
    (hgate : m.isFirstParty = false
      ∨ (semverForGoVersion gover ≠ ""
        ∧ affects (AffectedRanges m.versions) (semverForGoVersion gover) = Except.ok true))
    (hp : m.packages = ps1 ++ p :: ps2)
    (hps1 : checkPackages exported m ps1 = (ps1', qs1, none))
    (hskip : p.skipFix = "") (herr : exported m p = Except.error e) :
    checkSymbols gover affects exported r
      = ({ r with modules := pre' ++ { m with packages := ps1' ++ p :: ps2 } :: post },
         qsPre ++ (qs1 ++ [(m.module, p.package)]),
         some ("package " ++ p.package ++ ": " ++ e))
    ∧ (fixRun flags l1 l2 false gover affects exported head false r).fixed = false
    ∧ FixStep.aliasStep ∈ (fixRun flags l1 l2 false gover affects exported head false r).steps
    ∧ FixStep.refsStep ∈ (fixRun flags l1 l2 false gover affects exported head false r).steps := by
  have hpk : checkPackages exported m m.packages
      = (ps1' ++ p :: ps2, qs1 ++ [(m.module, p.package)],
         some ("package " ++ p.package ++ ": " ++ e)) := by
    rw [hp]
    exact checkPackages_error_at exported m ps1 ps1' ps2 p qs1 e hps1 hskip herr
  have hpm := processModule_of_gate gover affects exported m
    (ps1' ++ p :: ps2) (qs1 ++ [(m.module, p.package)])
    (some ("package " ++ p.package ++ ": " ++ e)) hgate hpk
  have hcm := checkModules_error_at gover affects exported pre pre' post m
    { m with packages := ps1' ++ p :: ps2 } qsPre (qs1 ++ [(m.module, p.package)])
    ("package " ++ p.package ++ ": " ++ e) hpre hpm
  have hcs : checkSymbols gover affects exported r
      = ({ r with modules := pre' ++ { m with packages := ps1' ++ p :: ps2 } :: post },
         qsPre ++ (qs1 ++ [(m.module, p.package)]),
         some ("package " ++ p.package ++ ": " ++ e)) := by
    unfold checkSymbols
    rw [if_neg (by rw [hex]; exact Bool.false_ne_true), hm, hcm]
  refine ⟨hcs, ?_, ?_, ?_⟩ <;>
    simp [fixRun, hsf, hsa, hcs]

/-- Third fixture package of the C3 scenario, after the failing one. -/
def c3pkg3 : Package := { package := "c/p3" }

/-- The refreshed form of the second fixture package. -/
def c3pkg2R : Package := { package := "b/p2", derivedSymbols := ["NewSym"] }

/-- A module processed before the failure in the C3 witness. -/
def c3modPre : Module := { module := "example.com/pre", packages := [c3pkg2] }

/-- The refreshed form of that module. -/
def c3modPreR : Module := { module := "example.com/pre", packages := [c3pkg2R] }

/-- The first-party module holding the failing package, gated through by
an in-range toolchain version; its first package refreshes, its second
fails, its third comes after the failure. -/
def c3modMid : Module :=
  { module := "example.com/mid"
    isFirstParty := true
    versions := [⟨"", "1.22.0"⟩]
    packages := [c3pkg2, c3pkg1, c3pkg3] }

/-- A module after the failure in the C3 witness. -/
def c3modPost : Module := { module := "example.com/post", packages := [c3pkg3] }

/-- The C3 witness report: one module before the failing one, one
after. -/
def c3reportW : Report :=
  { id := "GO-TEST-0003", modules := [c3modPre, c3modMid, c3modPost] }

/-- C3 witness: the amended statement with the failure in the middle
package of the middle, first-party module: the earlier module and the
earlier package keep their refreshed symbols, the failing package, the
later package and the later module are untouched, only the prefix and
the failing package were queried, and the fix pass reports failure
while still running the alias and reference steps. -/
theorem claim_C3_witness :
    checkSymbols "go1.21.3" wAffects c3exported c3reportW
      = ({ c3reportW with modules :=
            [c3modPreR] ++ { c3modMid with packages := [c3pkg2R] ++ c3pkg1 :: [c3pkg3] } :: [c3modPost] },
         [("example.com/pre", "b/p2")]
           ++ ([("example.com/mid", "b/p2")] ++ [("example.com/mid", "a/p1")]),
         some ("package " ++ "a/p1" ++ ": " ++ "load failed"))
    ∧ (fixRun {} [] [] false "go1.21.3" wAffects c3exported wHead false c3reportW).fixed = false
    ∧ FixStep.aliasStep
        ∈ (fixRun {} [] [] false "go1.21.3" wAffects c3exported wHead false c3reportW).steps
    ∧ FixStep.refsStep
        ∈ (fixRun {} [] [] false "go1.21.3" wAffects c3exported wHead false c3reportW).steps := by
  exact claim_C3 {} [] [] "go1.21.3" wAffects c3exported wHead c3reportW
    [c3modPre] [c3modPreR] [c3modPost] c3modMid
    [c3pkg2] [c3pkg2R] [c3pkg3] c3pkg1
    [("example.com/pre", "b/p2")] [("example.com/mid", "b/p2")] "load failed"
    rfl rfl rfl rfl rfl (Or.inr ⟨by decide, rfl⟩) rfl rfl rfl rfl

/-! ### C7 -/

theorem stdlibContains_empty : stdlibContains "" = false := rfl

theorem isStdModule_todo : isStdModule "TODO" = false := rfl

theorem isCmdModule_todo : isCmdModule "TODO" = false := rfl

theorem isXModule_todo : isXModule "TODO" = false := rfl

/-- Fixture v4 record of the C7 scenario, with product name foo. -/
def c7cve4 : CVE4 :=
  { descValues := []
    refURLs := []
    creditValues := []
    vendors := [⟨["foo"]⟩]
    metadataID := "CVE-2024-0001" }

/-- Fixture v5 record of the C7 scenario, with product name foo. -/
def c7cve5 : CVE5 :=
  { descriptions := []
    creditValues := []
    refURLs := []
    affected := [⟨"foo"⟩]
    metadataID := "CVE-2024-0002" }

/-- C7: in both schema converters, an empty candidate module path is
not part of the standard-library family, so after correction the module
path is replaced by the TODO unresolved marker and an empty package
path defaults to it; in particular an empty module path with first
product name foo yields a single TODO module containing the single
package foo. -/
theorem claim_C7 :
    (∀ (c : CVE4) (id : String),
      (cveToReport c id "").modules
        = [{ module := "TODO"
             packages := [{ package :=
               if firstProductV4 c = "" then "TODO" else firstProductV4 c }] }])
    ∧ (∀ (c : CVE5) (id : String),
      (cve5ToReport c id "").modules
        = [{ module := "TODO"
             packages := [{ package :=
               if firstProductV5 c = "" then "TODO" else firstProductV5 c }] }])
    ∧ (cveToReport c7cve4 "GO-ID-0001" "").modules
        = [{ module := "TODO", packages := [{ package := "foo" }] }]
    ∧ (cve5ToReport c7cve5 "GO-ID-0002" "").modules
        = [{ module := "TODO", packages := [{ package := "foo" }] }] := by
  refine ⟨?_, ?_, by rfl, by rfl⟩
  · intro c id
    unfold cveToReport addCVE
    simp [stdlibContains_empty, isStdModule_todo, isCmdModule_todo, isXModule_todo]
  · intro c id
    unfold cve5ToReport addCVE
    simp [stdlibContains_empty, isStdModule_todo, isCmdModule_todo, isXModule_todo]

/-! ### C9 -/

/-- A non-empty all-digit capture group. -/
def nonEmptyDigits (l : List Char) : Bool :=
  decide (l ≠ []) && l.all isDigitChar

/-- Well-formedness of the capture groups, as the go tag regular
expression constrains them: major, minor, the optional patch and the
optional prerelease number are non-empty digit strings, and the
prerelease kind is the literal beta or rc. -/
def GoTag.wfb (t : GoTag) : Bool :=
  nonEmptyDigits t.major && nonEmptyDigits t.minor
    && (match t.patch with | some p => nonEmptyDigits p | none => true)
    && (match t.pre with
        | some (k, n) =>
          (decide (k = ['b', 'e', 't', 'a']) || decide (k = ['r', 'c']))
            && nonEmptyDigits n
        | none => true)

/-- The tag string a group of captures came from: the literal go, the
major digits, a dot, the minor digits, the optional dot and patch
digits, and the optional prerelease kind and number. -/
def GoTag.render (t : GoTag) : List Char :=
  'g' :: 'o' :: (t.major ++ '.' :: (t.minor
    ++ ((match t.patch with | some p => '.' :: p | none => [])
      ++ (match t.pre with | some (k, n) => k ++ n | none => []))))

/-- The semantic version the specification prescribes for a well-formed
tag: major dot minor dot patch with the patch defaulting to 0, then a
dash, the prerelease kind, a dot and the prerelease number when a
prerelease is present. -/
def GoTag.semver (t : GoTag) : List Char :=
  t.major ++ '.' :: t.minor ++ '.' :: (t.patch.getD ['0'])
    ++ (match t.pre with | some (k, n) => '-' :: (k ++ '.' :: n) | none => [])

theorem mkSemver_eq_semver (t : GoTag) : mkSemver t = t.semver := by
  obtain ⟨maj, minor, patch, pre⟩ := t
  unfold mkSemver GoTag.semver
  cases patch with
  | none =>
    cases pre with
    | none => simp
    | some q => obtain ⟨k, n⟩ := q; simp
  | some p =>
    cases pre with
    | none => simp
    | some q => obtain ⟨k, n⟩ := q; simp

theorem takeWhile_all_append (p : Char → Bool) (d r : List Char) (hd : d.all p = true) :
    (d ++ r).takeWhile p = d ++ r.takeWhile p ∧ (d ++ r).dropWhile p = r.dropWhile p := by
  induction d with
  | nil => simp
  | cons a d ih =>
    rw [List.all_cons, Bool.and_eq_true] at hd
    simp [List.takeWhile_cons, List.dropWhile_cons, hd.1, ih hd.2]

theorem span_digits_stop (d : List Char) (c : Char) (r : List Char)
    (hd : d.all isDigitChar = true) (hc : isDigitChar c = false) :
    (d ++ c :: r).takeWhile isDigitChar = d
    ∧ (d ++ c :: r).dropWhile isDigitChar = c :: r := by
  have h := takeWhile_all_append isDigitChar d (c :: r) hd
  simpa [List.takeWhile_cons, List.dropWhile_cons, hc] using h

theorem span_digits_end (d : List Char) (hd : d.all isDigitChar = true) :
    d.takeWhile isDigitChar = d ∧ d.dropWhile isDigitChar = [] := by
  simpa using takeWhile_all_append isDigitChar d [] hd

theorem isDigitChar_dot : isDigitChar '.' = false := by decide

theorem isDigitChar_b : isDigitChar 'b' = false := by decide

theorem isDigitChar_r : isDigitChar 'r' = false := by decide

theorem parsePre_beta (n : List Char) (hn : n ≠ []) (hd : n.all isDigitChar = true) :
    parsePre (['b', 'e', 't', 'a'] ++ n) = some (['b', 'e', 't', 'a'], n) := by
  have h4 : (['b', 'e', 't', 'a'] ++ n).take 4 = ['b', 'e', 't', 'a'] := rfl
  have hd4 : (['b', 'e', 't', 'a'] ++ n).drop 4 = n := rfl
  unfold parsePre
  rw [h4, hd4]
  simp [hn, hd]

theorem parsePre_rc (n : List Char) (hn : n ≠ []) (hd : n.all isDigitChar = true) :
    parsePre (['r', 'c'] ++ n) = some (['r', 'c'], n) := by
  have hne : (['r', 'c'] ++ n).take 4 ≠ ['b', 'e', 't', 'a'] := by
    intro h
    rw [show (['r', 'c'] ++ n).take 4 = 'r' :: 'c' :: n.take 2 from rfl] at h
    injection h with h1 _
    exact absurd h1 (by decide)
  have h2 : (['r', 'c'] ++ n).take 2 = ['r', 'c'] := rfl
  have hd2 : (['r', 'c'] ++ n).drop 2 = n := rfl
  unfold parsePre
  rw [if_neg hne, h2, hd2]
  simp [hn, hd]

theorem parsePre_complete (l k n : List Char) (h : parsePre l = some (k, n)) :
    (k = ['b', 'e', 't', 'a'] ∨ k = ['r', 'c']) ∧ n ≠ [] ∧ n.all isDigitChar = true
      ∧ l = k ++ n := by
  unfold parsePre at h
  split at h
  · next hb =>
    split at h
    · next hcond =>
      injection h with h
      obtain ⟨hk, hn2⟩ := Prod.mk.injEq .. ▸ h
      subst hk
      subst hn2
      exact ⟨Or.inl rfl, hcond.1, hcond.2,
        by conv_lhs => rw [← List.take_append_drop 4 l, hb]⟩
    · exact absurd h (by simp)
  · split at h
    · next hr =>
      split at h
      · next hcond =>
        injection h with h
        obtain ⟨hk, hn2⟩ := Prod.mk.injEq .. ▸ h
        subst hk
        subst hn2
        exact ⟨Or.inr rfl, hcond.1, hcond.2,
          by conv_lhs => rw [← List.take_append_drop 2 l, hr]⟩
      · exact absurd h (by simp)
    · exact absurd h (by simp)

theorem parse_render (t : GoTag) (hwf : t.wfb = true) : parseGoTag t.render = some t := by
  obtain ⟨maj, minor, patch, pre⟩ := t
  unfold GoTag.wfb at hwf
  unfold GoTag.render
  dsimp only at hwf ⊢
  have hbdot : ('b' : Char) ≠ '.' := by decide
  have hrdot : ('r' : Char) ≠ '.' := by decide
  cases patch with
  | none =>
    cases pre with
    | none =>
      simp only [Bool.and_eq_true] at hwf
      obtain ⟨⟨⟨hmaj, hmin⟩, -⟩, -⟩ := hwf
      rw [nonEmptyDigits, Bool.and_eq_true, decide_eq_true_eq] at hmaj hmin
      simp only [List.append_nil]
      unfold parseGoTag
      have h1 := span_digits_stop maj '.' minor hmaj.2 isDigitChar_dot
      have h2 := span_digits_end minor hmin.2
      simp [h1.1, h1.2, h2.1, h2.2, hmaj.1, hmin.1]
    | some q =>
      obtain ⟨k, n⟩ := q
      simp only [Bool.and_eq_true] at hwf
      obtain ⟨⟨⟨hmaj, hmin⟩, -⟩, hq⟩ := hwf
      obtain ⟨hk, hn⟩ := hq
      rw [Bool.or_eq_true, decide_eq_true_eq, decide_eq_true_eq] at hk
      rw [nonEmptyDigits, Bool.and_eq_true, decide_eq_true_eq] at hmaj hmin hn
      rcases hk with hk | hk <;> subst hk
      · simp only [List.nil_append, List.cons_append]
        unfold parseGoTag
        have h1 := span_digits_stop maj '.'
          (minor ++ 'b' :: 'e' :: 't' :: 'a' :: n) hmaj.2 isDigitChar_dot
        have h2 := span_digits_stop minor 'b' ('e' :: 't' :: 'a' :: n) hmin.2 isDigitChar_b
        have h3 := parsePre_beta n hn.1 hn.2
        simp only [List.cons_append, List.nil_append] at h1 h2 h3
        simp [h1.1, h1.2, h2.1, h2.2, h3, hmaj.1, hmin.1, hbdot]
      · simp only [List.nil_append, List.cons_append]
        unfold parseGoTag
        have h1 := span_digits_stop maj '.' (minor ++ 'r' :: 'c' :: n) hmaj.2 isDigitChar_dot
        have h2 := span_digits_stop minor 'r' ('c' :: n) hmin.2 isDigitChar_r
        have h3 := parsePre_rc n hn.1 hn.2
        simp only [List.cons_append, List.nil_append] at h1 h2 h3
        simp [h1.1, h1.2, h2.1, h2.2, h3, hmaj.1, hmin.1, hrdot]
  | some p =>
    cases pre with
    | none =>
      simp only [Bool.and_eq_true] at hwf
      obtain ⟨⟨⟨hmaj, hmin⟩, hp⟩, -⟩ := hwf
      rw [nonEmptyDigits, Bool.and_eq_true, decide_eq_true_eq] at hmaj hmin hp
      simp only [List.append_nil, List.cons_append]
      unfold parseGoTag
      have h1 := span_digits_stop maj '.' (minor ++ '.' :: p) hmaj.2 isDigitChar_dot
      have h2 := span_digits_stop minor '.' p hmin.2 isDigitChar_dot
      have h3 := span_digits_end p hp.2
      simp [h1.1, h1.2, h2.1, h2.2, h3.1, h3.2, hmaj.1, hmin.1, hp.1]
    | some q =>
      obtain ⟨k, n⟩ := q
      simp only [Bool.and_eq_true] at hwf
      obtain ⟨⟨⟨hmaj, hmin⟩, hp⟩, hq⟩ := hwf
      obtain ⟨hk, hn⟩ := hq
      rw [Bool.or_eq_true, decide_eq_true_eq, decide_eq_true_eq] at hk
      rw [nonEmptyDigits, Bool.and_eq_true, decide_eq_true_eq] at hmaj hmin hp hn
      rcases hk with hk | hk <;> subst hk
      · simp only [List.nil_append, List.cons_append]
        unfold parseGoTag
        have h1 := span_digits_stop maj '.'
          (minor ++ '.' :: (p ++ 'b' :: 'e' :: 't' :: 'a' :: n)) hmaj.2 isDigitChar_dot
        have h2 := span_digits_stop minor '.'
          (p ++ 'b' :: 'e' :: 't' :: 'a' :: n) hmin.2 isDigitChar_dot
        have h3 := span_digits_stop p 'b' ('e' :: 't' :: 'a' :: n) hp.2 isDigitChar_b
        have h4 := parsePre_beta n hn.1 hn.2
        simp only [List.cons_append, List.nil_append] at h1 h2 h3 h4
        simp [h1.1, h1.2, h2.1, h2.2, h3.1, h3.2, h4, hmaj.1, hmin.1, hp.1, hbdot]
      · simp only [List.nil_append, List.cons_append]
        unfold parseGoTag
        have h1 := span_digits_stop maj '.'
          (minor ++ '.' :: (p ++ 'r' :: 'c' :: n)) hmaj.2 isDigitChar_dot
        have h2 := span_digits_stop minor '.' (p ++ 'r' :: 'c' :: n) hmin.2 isDigitChar_dot
        have h3 := span_digits_stop p 'r' ('c' :: n) hp.2 isDigitChar_r
        have h4 := parsePre_rc n hn.1 hn.2
        simp only [List.cons_append, List.nil_append] at h1 h2 h3 h4
        simp [h1.1, h1.2, h2.1, h2.2, h3.1, h3.2, h4, hmaj.1, hmin.1, hp.1, hrdot]

theorem parse_complete (l : List Char) (t : GoTag) (h : parseGoTag l = some t) :
    t.wfb = true ∧ l = t.render := by
  unfold parseGoTag at h
  split at h
  case _ c1 c2 rest =>
    split at h
    case isFalse => simp at h
    case isTrue hgo =>
      obtain ⟨hg, ho⟩ := hgo
      subst hg
      subst ho
      split at h
      case isTrue => simp at h
      case isFalse hmaj =>
        split at h
        case h_1 heq1 => simp at h
        case h_2 d r2 heq1 =>
          split at h
          case isFalse => simp at h
          case isTrue hd =>
            subst hd
            split at h
            case isTrue => simp at h
            case isFalse hmin =>
              have hrest : rest.takeWhile isDigitChar ++ '.' :: r2 = rest := by
                have hw := List.takeWhile_append_dropWhile (p := isDigitChar) (l := rest)
                rw [heq1] at hw
                exact hw
              split at h
              case h_1 heq2 =>
                injection h with h
                subst h
                refine ⟨by simp [GoTag.wfb, nonEmptyDigits, hmaj, hmin], ?_⟩
                have hr2 : r2.takeWhile isDigitChar = r2 := by
                  have hw := List.takeWhile_append_dropWhile (p := isDigitChar) (l := r2)
                  rw [heq2, List.append_nil] at hw
                  exact hw
                unfold GoTag.render
                dsimp only
                rw [List.append_nil, List.append_nil, hr2, hrest]
              case h_2 d2 r4 heq2 =>
                split at h
                case isTrue hd2 =>
                  subst hd2
                  split at h
                  case isTrue => simp at h
                  case isFalse hpat =>
                    have hr2 : r2.takeWhile isDigitChar ++ '.' :: r4 = r2 := by
                      have hw := List.takeWhile_append_dropWhile (p := isDigitChar) (l := r2)
                      rw [heq2] at hw
                      exact hw
                    split at h
                    case h_1 heq3 =>
                      injection h with h
                      subst h
                      refine ⟨by simp [GoTag.wfb, nonEmptyDigits, hmaj, hmin, hpat], ?_⟩
                      have hr4 : r4.takeWhile isDigitChar = r4 := by
                        have hw := List.takeWhile_append_dropWhile (p := isDigitChar) (l := r4)
                        rw [heq3, List.append_nil] at hw
                        exact hw
                      unfold GoTag.render
                      dsimp only
                      rw [List.append_nil, hr4, hr2, hrest]
                    case h_2 e r6 heq3 =>
                      rw [Option.map_eq_some'] at h
                      obtain ⟨q, hq, hft⟩ := h
                      obtain ⟨k, n⟩ := q
                      obtain ⟨hk, hn1, hn2, hl⟩ := parsePre_complete _ _ _ hq
                      subst hft
                      have hr4 : r4.takeWhile isDigitChar ++ (k ++ n) = r4 := by
                        have hw := List.takeWhile_append_dropWhile (p := isDigitChar) (l := r4)
                        rw [heq3, hl] at hw
                        exact hw
                      constructor
                      · rcases hk with hk | hk <;>
                          simp [GoTag.wfb, nonEmptyDigits, hmaj, hmin, hpat, hn1, hn2, hk]
                      · unfold GoTag.render
                        dsimp only
                        rw [List.cons_append, hr4, hr2, hrest]
                case isFalse hd2 =>
                  rw [Option.map_eq_some'] at h
                  obtain ⟨q, hq, hft⟩ := h
                  obtain ⟨k, n⟩ := q
                  obtain ⟨hk, hn1, hn2, hl⟩ := parsePre_complete _ _ _ hq
                  subst hft
                  have hr2 : r2.takeWhile isDigitChar ++ (k ++ n) = r2 := by
                    have hw := List.takeWhile_append_dropWhile (p := isDigitChar) (l := r2)
                    rw [heq2, hl] at hw
                    exact hw
                  constructor
                  · rcases hk with hk | hk <;>
                      simp [GoTag.wfb, nonEmptyDigits, hmaj, hmin, hn1, hn2, hk]
                  · unfold GoTag.render
                    dsimp only
                    rw [List.nil_append, hr2, hrest]
  case _ =>
    simp at h

/-- C9: semverForGoVersion maps every well-formed tag of the shape go,
major, dot, minor, optional dot and patch, optional beta-or-rc and
number, to the semantic version major dot minor dot patch — the patch
defaulting to 0 when absent and dash, kind, dot, number appended when a
prerelease is present — and returns the empty unknown sentinel for
every input that is not such a tag; in particular go1.21.3 maps to
1.21.3, go1.21beta1 maps to 1.21.0-beta.1, and 1.21.3 maps to the
empty string. -/
theorem claim_C9 (v : String) :
    (∀ t : GoTag, t.wfb = true → v.data = t.render →
      semverForGoVersion v = String.mk t.semver)
    ∧ ((∀ t : GoTag, t.wfb = true → v.data ≠ t.render) → semverForGoVersion v = "")
    ∧ semverForGoVersion "go1.21.3" = "1.21.3"
    ∧ semverForGoVersion "go1.21beta1" = "1.21.0-beta.1"
    ∧ semverForGoVersion "1.21.3" = "" := by
  refine ⟨?_, ?_, by decide, by decide, by decide⟩
  · intro t hwf hv
    unfold semverForGoVersion
    rw [hv, parse_render t hwf]
    show String.mk (mkSemver t) = String.mk t.semver
    rw [mkSemver_eq_semver]
  · intro hnone
    unfold semverForGoVersion
    cases hp : parseGoTag v.data with
    | none => rfl
    | some t =>
      obtain ⟨hwf, hl⟩ := parse_complete v.data t hp
      exact absurd hl (hnone t hwf)

/-- C9 witness: the well-formed tag go1.21.3 and its semantic
version. -/
theorem claim_C9_witness :
    ((⟨['1'], ['2', '1'], some ['3'], none⟩ : GoTag).wfb = true
      ∧ "go1.21.3".data = GoTag.render ⟨['1'], ['2', '1'], some ['3'], none⟩)
    ∧ semverForGoVersion "go1.21.3"
        = String.mk (GoTag.semver ⟨['1'], ['2', '1'], some ['3'], none⟩) :=
  ⟨⟨by decide, by decide⟩,
    (claim_C9 "go1.21.3").1 ⟨['1'], ['2', '1'], some ['3'], none⟩ (by decide) (by decide)⟩

end Vulndb
